import Mathlib

/-!
# Dashboard snapshots: the creation command, its validation and the record it builds

A shallow embedding of `pkg/services/snapshot/snapshot_model.go`, and of the search
interface declared in `pkg/services/fts/fts.go`.

Modelling decisions:

* Go `error` values are the inductive `Error`; a nil error is `none`.
* `map[string]interface{}` is `Option (List (String × Value))`: `none` is the nil map,
  `some kvs` a non-nil map with the entries `kvs`. `[]byte` is `Option (List (Fin 256))`
  in the same way.
* `int64` fields are `Int`; the only arithmetic on them, the `time.Duration` product,
  wraps at 64 bits (`wrap64`).
* `time.Time` is its wall-clock reading: the seconds since the zero time (January 1 of
  year 1, 00:00:00 UTC) as an `int64`, and the nanoseconds within the second. `Time.Add`
  follows the standard library: it splits the duration into seconds and nanoseconds,
  carries between them, and saturates at the ends of the `int64` range of seconds. The
  location and the monotonic clock reading of a Go value are left out; a value with a
  monotonic reading lies between the years 1885 and 2157, where adding a duration never
  saturates and moves the monotonic reading by the same amount as the wall clock.
* `util.GetRandomString` is not part of the modelled file. It is a parameter of `Skel`:
  `rand i n` is what the `i`-th call of the random source returns when asked for `n`
  characters, and `Skel` threads the number of calls made so far.
* `json.Marshal` and `simplejson.NewJson` are parameters of `ModelsDashboardSnapshot`.
* A Go interface is the record of its methods over the state of an implementation.
* Operations whose code is not in the modelled files are modelled from the specification
  of the service; their doc comments say so.
-/

namespace Snapshot

/-- Go error values as built in this file: `fmt.Errorf` with a plain message, or with a
`%w` verb wrapping a cause. -/
inductive Error where
  | errorf (msg : String) : Error
  | wrapf (msg : String) (cause : Error) : Error
deriving DecidableEq, Repr

/-- The message of an error (`err.Error()`). -/
def Error.message : Error → String
  | Error.errorf msg => msg
  | Error.wrapf msg cause => msg ++ cause.message

/-- Values of type `interface{}` as they occur in a decoded JSON document. -/
inductive Value where
  | null : Value
  | bool (b : Bool) : Value
  | number (n : Int) : Value
  | string (s : String) : Value
  | array (xs : List Value) : Value
  | object (kvs : List (String × Value)) : Value

/-- The type `map[string]interface{}`; `none` is the nil map. -/
abbrev Document := Option (List (String × Value))

/-- The type `[]byte`; `none` is the nil slice. -/
abbrev Bytes := Option (List (Fin 256))

/-- Go `len` on a map. -/
def Document.len : Document → Nat
  | none => 0
  | some kvs => kvs.length

/-- Go `len` on a byte slice. -/
def Bytes.len : Bytes → Nat
  | none => 0
  | some bs => bs.length

/-- Reduction of an integer to the `int64` range (two's complement wrap-around). -/
def wrap64 (x : Int) : Int :=
  (x + 9223372036854775808) % 18446744073709551616 - 9223372036854775808

/-- The constant `time.Second`, a `time.Duration` in nanoseconds. -/
def Second : Int := 1000000000

/-- Multiplication of two `time.Duration` values (`int64` multiplication). -/
def Duration.mul (a b : Int) : Int := wrap64 (a * b)

/-- A `time.Time` by its wall-clock reading: `sec` is the method `sec()`, the seconds
since January 1 of year 1 (an `int64`), and `nsec` the method `nsec()`, the nanoseconds
within that second. -/
structure Time where
  sec : Int
  nsec : Int
deriving DecidableEq, Repr

/-- The values a `time.Time` can hold: `sec` is an `int64` and `nsec` lies between 0 and
999999999. -/
def Time.valid (t : Time) : Prop :=
  -9223372036854775808 ≤ t.sec ∧ t.sec ≤ 9223372036854775807 ∧
    0 ≤ t.nsec ∧ t.nsec < 1000000000

instance (t : Time) : Decidable t.valid := by
  unfold Time.valid
  infer_instance

/-- The zero value of `time.Time` (`var expires time.Time`). -/
def Time.zero : Time := { sec := 0, nsec := 0 }

/-- The method `t.IsZero()`. -/
def Time.IsZero (t : Time) : Bool := decide (t.sec = 0) && decide (t.nsec = 0)

/-- The method `(t *Time) addSec(d)` of the standard library: `d` seconds later. The sum
is computed in `int64`; when it overflows, the result is the largest second for a
positive `d` and the negative of it for a negative `d`. -/
def Time.addSec (t : Time) (d : Int) : Time :=
  let sum := wrap64 (t.sec + d)
  if decide (sum > t.sec) = decide (d > 0) then { t with sec := sum }
  else if d > 0 then { t with sec := 9223372036854775807 }
  else { t with sec := -9223372036854775807 }

/-- The method `t.Add(d)` of the standard library, `d` a `time.Duration` in nanoseconds:
the duration is split by truncated division into whole seconds and a rest, the rest is
added to the nanoseconds with a carry into the seconds, and the seconds are added by
`addSec`. -/
def Time.Add (t : Time) (d : Int) : Time :=
  let dsec := Int.tdiv d 1000000000
  let nsec := t.nsec + Int.tmod d 1000000000
  if nsec ≥ 1000000000 then
    Time.addSec { t with nsec := nsec - 1000000000 } (dsec + 1)
  else if nsec < 0 then
    Time.addSec { t with nsec := nsec + 1000000000 } (dsec - 1)
  else
    Time.addSec { t with nsec := nsec } dsec

/-- The method `t.After(u)`. -/
def Time.After (t u : Time) : Bool :=
  decide (t.sec > u.sec) || (decide (t.sec = u.sec) && decide (t.nsec > u.nsec))

/-- The struct `DashboardSnapshot`. -/
structure DashboardSnapshot where
  ID : Int
  Name : String
  Key : String
  OrgID : Int
  UserID : Int
  External : Bool
  ExternalURL : String
  DeleteKey : String
  ExternalDeleteURL : String
  Expires : Time
  Created : Time
  Updated : Time
  Dashboard : Document
  DashboardEncrypted : Bytes

/-- The method `(s *DashboardSnapshot) Redact()`: the receiver after the call. -/
def DashboardSnapshot.Redact (s : DashboardSnapshot) : DashboardSnapshot :=
  { s with DeleteKey := "", ExternalDeleteURL := "" }

/-- The struct `CreateCmd`. -/
structure CreateCmd where
  Name : String
  Expires : Int
  External : Bool
  ExternalURL : String
  ExternalDeleteURL : String
  Key : String
  DeleteKey : String
  OrgID : Int
  UserID : Int
  Dashboard : Document
  DashboardEncrypted : Bytes

/-- The method `(c CreateCmd) Validate()`; `none` is the nil error. -/
def CreateCmd.Validate (c : CreateCmd) : Option Error :=
  if c.Dashboard.isNone = true then
    some (Error.errorf "dashboard field required")
  else if c.External = true then
    if c.Key = "" then
      some (Error.errorf "key is required when creating external snapshot")
    else if c.DeleteKey = "" then
      some (Error.errorf "deleteKey is required when creating external snapshot")
    else
      none
  else
    none

/-- The random source behind `util.GetRandomString`: `rand i n` is the outcome of the
`i`-th call, asked for `n` characters. -/
abbrev KeyGenerator := Nat → Nat → Except Error String

/-- The method `(c CreateCmd) Skel(now)`. `calls` is the number of calls made to the random
source before this one; the second component of the result is that number afterwards. -/
def CreateCmd.Skel (rand : KeyGenerator) (c : CreateCmd) (now : Time) (calls : Nat) :
    Except Error DashboardSnapshot × Nat :=
  match c.Validate with
  | some err => (Except.error err, calls)
  | none =>
    let expires : Time :=
      if c.Expires ≠ 0 then now.Add (Duration.mul c.Expires Second) else Time.zero
    let c : CreateCmd := if c.Name = "" then { c with Name := "Unnamed snapshot" } else c
    let withKey : Except Error CreateCmd × Nat :=
      if c.Key = "" then
        match rand calls 32 with
        | Except.error err =>
          (Except.error (Error.wrapf "failed to generate random key: " err), calls + 1)
        | Except.ok key => (Except.ok { c with Key := key }, calls + 1)
      else (Except.ok c, calls)
    match withKey with
    | (Except.error err, calls) => (Except.error err, calls)
    | (Except.ok c, calls) =>
      let withDeleteKey : Except Error CreateCmd × Nat :=
        if c.DeleteKey = "" then
          match rand calls 32 with
          | Except.error err =>
            (Except.error (Error.wrapf "failed to generate random delete key: " err), calls + 1)
          | Except.ok key => (Except.ok { c with DeleteKey := key }, calls + 1)
        else (Except.ok c, calls)
      match withDeleteKey with
      | (Except.error err, calls) => (Except.error err, calls)
      | (Except.ok c, calls) =>
        (Except.ok
          { ID := 0
            Name := c.Name
            Key := c.Key
            OrgID := c.OrgID
            UserID := c.UserID
            External := c.External
            ExternalURL := c.ExternalURL
            DeleteKey := c.DeleteKey
            ExternalDeleteURL := c.ExternalDeleteURL
            Expires := expires
            Created := now
            Updated := now
            Dashboard := c.Dashboard
            DashboardEncrypted := c.DashboardEncrypted },
          calls)

/-- The struct `models.DashboardSnapshot` of package `models`, with the fields that the
composite literal in `ModelsDashboardSnapshot` sets; `J` stands for `*simplejson.Json`. -/
structure Models.DashboardSnapshot (J : Type) where
  Id : Int
  Name : String
  Key : String
  DeleteKey : String
  OrgId : Int
  UserId : Int
  External : Bool
  ExternalUrl : String
  ExternalDeleteUrl : String
  Expires : Time
  Created : Time
  Updated : Time
  Dashboard : J
  DashboardEncrypted : Bytes

/-- The method `(s *DashboardSnapshot) ModelsDashboardSnapshot()`. `marshal` is
`json.Marshal` applied to the dashboard and `newJson` is `simplejson.NewJson`; both live
outside the modelled file and may fail. The second component of the result is the
receiver after the call. -/
def DashboardSnapshot.ModelsDashboardSnapshot {J : Type}
    (marshal : Document → Except Error (List (Fin 256)))
    (newJson : List (Fin 256) → Except Error J) (s : DashboardSnapshot) :
    Except Error (Models.DashboardSnapshot J) × DashboardSnapshot :=
  match marshal s.Dashboard with
  | Except.error err => (Except.error err, s)
  | Except.ok marshaledDashboard =>
    match newJson marshaledDashboard with
    | Except.error err => (Except.error err, s)
    | Except.ok j =>
      (Except.ok
        { Id := s.ID
          Name := s.Name
          Key := s.Key
          DeleteKey := s.DeleteKey
          OrgId := s.OrgID
          UserId := s.UserID
          External := s.External
          ExternalUrl := s.ExternalURL
          ExternalDeleteUrl := s.ExternalDeleteURL
          Expires := s.Expires
          Created := s.Created
          Updated := s.Updated
          Dashboard := j
          DashboardEncrypted := s.DashboardEncrypted },
        s)

/-! ## The search interface of `pkg/services/fts/fts.go` -/

/-- The struct `Result` of package `fts`. -/
structure Fts.Result where
  ID : Int
  Text : String
  Kind : String
  UID : String
  OrgID : Int
  Weight : Int
deriving DecidableEq, Repr

/-- The interface `Search` of package `fts`, as the record of its methods over the state
`σ` of an implementation. `Ctx` is `context.Context` and `D` is `db.DB`, both left
abstract. Each method takes the state before the call; the methods that can change the
index return the state after it. The parameters are those of the source, in its order:
`Add(ctx, text, kind, uid, orgID, weight)`, `Search(ctx, query)`,
`Delete(ctx, kind, uid, orgID)`, `Close(ctx)`. -/
structure Fts.Search (Ctx D σ : Type) where
  DB : σ → D
  Add : σ → Ctx → String → String → String → Int → Int → Option Error × σ
  Search : σ → Ctx → String → Except Error (List Fts.Result) × σ
  Delete : σ → Ctx → String → String → Int → Option Error × σ
  Close : σ → Ctx → Option Error × σ

/-- The struct `baseSearch`. -/
structure Fts.baseSearch (D : Type) where
  db : D

/-- The method `(s baseSearch) DB()`. -/
def Fts.baseSearch.DB {D : Type} (s : Fts.baseSearch D) : D := s.db

/-- Modelled from the spec: the order in which `Search` returns its results, "ranked by
relevance then by `Weight` descending". `relevance query text` is the score that the
tokenizer and ranking of an implementation give a text for a query, which the spec leaves
implementation-defined; 0 means that the text does not match. -/
def rankedBefore (relevance : String → String → Nat) (query : String)
    (a b : Fts.Result) : Prop :=
  relevance query a.Text > relevance query b.Text ∨
    (relevance query a.Text = relevance query b.Text ∧ a.Weight ≥ b.Weight)

instance (relevance : String → String → Nat) (query : String) :
    DecidableRel (rankedBefore relevance query) := fun a b => by
  unfold rankedBefore
  infer_instance

/-- Modelled from the spec: the operation `Search(query, orgID) -> []SearchResult` of the
search index, "scoped to the caller's organization". No implementation of the interface
`Search` is in the modelled files, which only declare it, with the method
`Search(ctx, query)`. The index state `st` is the list of its entries; the results are
the entries of the organisation `orgID` that match the query, in the order
`rankedBefore`. -/
def specSearch (relevance : String → String → Nat) (st : List Fts.Result) (query : String)
    (orgID : Int) : List Fts.Result :=
  (st.filter fun r => decide (r.OrgID = orgID) && decide (0 < relevance query r.Text)).insertionSort
    (rankedBefore relevance query)

/-- Modelled from the spec: the selection rule of the expiry sweep `DeleteExpired(now)`,
which lives in the store and not in the modelled file. The spec has it delete "all
snapshots with non-zero `Expires <= now`". -/
def expiredAt (now : Time) (s : DashboardSnapshot) : Bool :=
  !s.Expires.IsZero && !s.Expires.After now

/-! ## Sample inputs -/

/-- A random source that never fails: the first call returns 32 times the letter `a`,
every later call 32 times the letter `b` (in general `n` times that letter). -/
def sampleRand : KeyGenerator := fun i n =>
  Except.ok (String.mk (List.replicate n (if i = 0 then 'a' else 'b')))

/-- The creation command of the spec scenario: name `demo`, 60 seconds, document
`a: 1`, organisation 1, user 7. -/
def demoCmd : CreateCmd :=
  { Name := "demo"
    Expires := 60
    External := false
    ExternalURL := ""
    ExternalDeleteURL := ""
    Key := ""
    DeleteKey := ""
    OrgID := 1
    UserID := 7
    Dashboard := some [("a", Value.number 1)]
    DashboardEncrypted := none }

/-- A creation time used in examples. -/
def t0 : Time := { sec := 63900000000, nsec := 0 }

/-- A creation time ten seconds before the last second a `time.Time` can hold. -/
def lateTime : Time := { sec := 9223372036854775797, nsec := 0 }

/-- A creation time in the last second a `time.Time` can hold. -/
def lastSecond : Time := { sec := 9223372036854775807, nsec := 0 }

/-- The snapshot `Skel` builds from `demoCmd` at `t0` with `sampleRand`. -/
def demoSnapshot : DashboardSnapshot :=
  { ID := 0
    Name := "demo"
    Key := "aaaaaaaaaaaaaaaaaaaaaaaaaaaaaaaa"
    OrgID := 1
    UserID := 7
    External := false
    ExternalURL := ""
    DeleteKey := "bbbbbbbbbbbbbbbbbbbbbbbbbbbbbbbb"
    ExternalDeleteURL := ""
    Expires := { sec := 63900000060, nsec := 0 }
    Created := t0
    Updated := t0
    Dashboard := some [("a", Value.number 1)]
    DashboardEncrypted := none }

/-- An external command that supplies a delete key but no read key. -/
def externalNoKey : CreateCmd :=
  { demoCmd with External := true, DeleteKey := "d3l3t3" }

/-- A command that supplies the same value as read key and as delete key. -/
def sameKeyCmd : CreateCmd :=
  { demoCmd with Key := "shared-token", DeleteKey := "shared-token" }

/-- A command that supplies two short keys of its own. -/
def shortKeyCmd : CreateCmd :=
  { demoCmd with Key := "k", DeleteKey := "d" }

/-- A command whose lifetime in seconds, times `time.Second`, exceeds the `int64` range. -/
def farCmd : CreateCmd :=
  { demoCmd with Expires := 9223372037 }

/-- A command with a negative lifetime. -/
def pastCmd : CreateCmd :=
  { demoCmd with Expires := -1 }

/-- A command that asks for a snapshot that never expires. -/
def neverCmd : CreateCmd :=
  { demoCmd with Expires := 0 }

/-- A command that carries both the plain document and an encrypted payload. -/
def bothCmd : CreateCmd :=
  { demoCmd with DashboardEncrypted := some [1, 2, 3] }

/-- A command that is not external and still carries the two external addresses. -/
def urlCmd : CreateCmd :=
  { demoCmd with
    ExternalURL := "https://snapshots.example/view/1"
    ExternalDeleteURL := "https://snapshots.example/delete/1" }

/-- A command without a name. -/
def unnamedCmd : CreateCmd :=
  { demoCmd with Name := "" }

/-- A command without a dashboard. -/
def noDashboardCmd : CreateCmd :=
  { demoCmd with Dashboard := none }

/-- An external command that supplies a read key but no delete key. -/
def externalNoDeleteKey : CreateCmd :=
  { demoCmd with External := true, Key := "r34d" }

/-- An external command that supplies both keys. -/
def externalCmd : CreateCmd :=
  { demoCmd with External := true, Key := "r34d", DeleteKey := "d3l3t3" }

/-- A command that supplies a read key of its own and leaves the delete key empty. -/
def ownKeyCmd : CreateCmd :=
  { demoCmd with Key := "my-own-read-key" }

/-- The error of a random source that has run dry. -/
def entropyError : Error := Error.errorf "entropy source unavailable"

/-- A random source whose first call succeeds and whose later calls all fail. -/
def dryRand : KeyGenerator := fun i n =>
  if i = 0 then Except.ok (String.mk (List.replicate n 'a')) else Except.error entropyError

/-- A stand-in for `json.Marshal` on dashboards: it fails on the nil map and otherwise
returns one byte per entry. -/
def sampleMarshal : Document → Except Error (List (Fin 256))
  | none => Except.error (Error.errorf "json: unsupported value")
  | some kvs => Except.ok (kvs.map fun _ => 123)

/-- A stand-in for `simplejson.NewJson`: it fails on the empty input and otherwise keeps
the bytes. -/
def sampleNewJson : List (Fin 256) → Except Error (List (Fin 256))
  | [] => Except.error (Error.errorf "EOF")
  | bs => Except.ok bs

/-- A stand-in for the tokenizer and ranking of an index: a text matches a query, with
relevance 1, when it is the query itself. -/
def sampleRelevance : String → String → Nat := fun query text =>
  if text = query then 1 else 0

/-- The entry of organisation 1 in `twoOrgEntries`. -/
def entryOfOrg1 : Fts.Result :=
  { ID := 1, Text := "cpu", Kind := "snapshot", UID := "key-of-org-1", OrgID := 1, Weight := 0 }

/-- The entry of organisation 2 in `twoOrgEntries`. -/
def entryOfOrg2 : Fts.Result :=
  { ID := 2, Text := "cpu", Kind := "snapshot", UID := "key-of-org-2", OrgID := 2, Weight := 0 }

/-- An index in which organisations 1 and 2 each hold a snapshot entry with the text
`cpu`. -/
def twoOrgEntries : List Fts.Result := [entryOfOrg1, entryOfOrg2]

/-! ## The shape of a successful `Skel` -/

/-- Inversion of a successful `Skel`: the command validates, each key is the command's
own when that is non-empty and otherwise the token of the next call of the random source,
and every field of the record is determined accordingly. -/
theorem Skel_ok_inv (rand : KeyGenerator) (c : CreateCmd) (now : Time) (calls : Nat)
    (s : DashboardSnapshot) (h : (c.Skel rand now calls).1 = Except.ok s) :
    c.Validate = none ∧
    ∃ key dkey : String,
      (if c.Key = "" then rand calls 32 = Except.ok key else key = c.Key) ∧
      (if c.DeleteKey = "" then
          rand (if c.Key = "" then calls + 1 else calls) 32 = Except.ok dkey
        else dkey = c.DeleteKey) ∧
      s =
        { ID := 0
          Name := if c.Name = "" then "Unnamed snapshot" else c.Name
          Key := key
          OrgID := c.OrgID
          UserID := c.UserID
          External := c.External
          ExternalURL := c.ExternalURL
          DeleteKey := dkey
          ExternalDeleteURL := c.ExternalDeleteURL
          Expires := if c.Expires ≠ 0 then now.Add (Duration.mul c.Expires Second) else Time.zero
          Created := now
          Updated := now
          Dashboard := c.Dashboard
          DashboardEncrypted := c.DashboardEncrypted } := by
  unfold CreateCmd.Skel at h
  cases hv : c.Validate with
  | some e => simp [hv] at h
  | none =>
    refine ⟨rfl, ?_⟩
    simp only [hv] at h
    by_cases hn : c.Name = "" <;> by_cases hk : c.Key = "" <;> by_cases hd : c.DeleteKey = ""
    all_goals simp only [hn, hk, hd, if_true, if_false] at h ⊢
    · cases hr : rand calls 32 with
      | error e => simp [hr] at h
      | ok key =>
        simp only [hr, hd, if_true] at h
        cases hr2 : rand (calls + 1) 32 with
        | error e => simp [hr2] at h
        | ok dkey =>
          simp only [hr2] at h
          exact ⟨key, dkey, rfl, rfl, by injection h with h; exact h.symm⟩
    · cases hr : rand calls 32 with
      | error e => simp [hr] at h
      | ok key =>
        simp only [hr, hd, if_false] at h
        exact ⟨key, c.DeleteKey, rfl, rfl, by injection h with h; exact h.symm⟩
    · cases hr2 : rand calls 32 with
      | error e => simp [hr2] at h
      | ok dkey =>
        simp only [hr2] at h
        exact ⟨c.Key, dkey, rfl, rfl, by injection h with h; exact h.symm⟩
    · exact ⟨c.Key, c.DeleteKey, rfl, rfl, by injection h with h; exact h.symm⟩
    · cases hr : rand calls 32 with
      | error e => simp [hr] at h
      | ok key =>
        simp only [hr, hd, if_true] at h
        cases hr2 : rand (calls + 1) 32 with
        | error e => simp [hr2] at h
        | ok dkey =>
          simp only [hr2] at h
          exact ⟨key, dkey, rfl, rfl, by injection h with h; exact h.symm⟩
    · cases hr : rand calls 32 with
      | error e => simp [hr] at h
      | ok key =>
        simp only [hr, hd, if_false] at h
        exact ⟨key, c.DeleteKey, rfl, rfl, by injection h with h; exact h.symm⟩
    · cases hr2 : rand calls 32 with
      | error e => simp [hr2] at h
      | ok dkey =>
        simp only [hr2] at h
        exact ⟨c.Key, dkey, rfl, rfl, by injection h with h; exact h.symm⟩
    · exact ⟨c.Key, c.DeleteKey, rfl, rfl, by injection h with h; exact h.symm⟩

/-- A command that fails validation makes `Skel` return that very error, without a call
to the random source. -/
theorem Skel_of_validate_some (rand : KeyGenerator) (c : CreateCmd) (now : Time)
    (calls : Nat) (e : Error) (hv : c.Validate = some e) :
    c.Skel rand now calls = (Except.error e, calls) := by
  unfold CreateCmd.Skel
  simp [hv]

/-- A string of 32 characters is not the empty string. -/
theorem ne_empty_of_length (t : String) (h : t.length = 32) : t ≠ "" := by
  intro ht
  subst ht
  simp at h

/-- An integer in the `int64` range is left alone by `wrap64`. -/
theorem wrap64_of_range (x : Int) (hlo : -9223372036854775808 ≤ x)
    (hhi : x ≤ 9223372036854775807) : wrap64 x = x := by
  unfold wrap64
  omega

/-- A command that validates has a non-nil dashboard. -/
theorem dashboard_of_validate_none (c : CreateCmd) (hv : c.Validate = none) :
    c.Dashboard ≠ none := by
  intro hd
  unfold CreateCmd.Validate at hv
  simp [hd] at hv

/-- Totality of `Skel` on the success path: a command that validates yields a snapshot
whenever the calls of the random source succeed. -/
theorem Skel_succeeds (rand : KeyGenerator) (c : CreateCmd) (now : Time) (calls : Nat)
    (hv : c.Validate = none) (hr : ∀ i, ∃ t, rand i 32 = Except.ok t) :
    ∃ s, (c.Skel rand now calls).1 = Except.ok s := by
  obtain ⟨t1, h1⟩ := hr calls
  obtain ⟨t2, h2⟩ := hr (calls + 1)
  unfold CreateCmd.Skel
  simp only [hv]
  by_cases hn : c.Name = "" <;> by_cases hk : c.Key = "" <;> by_cases hd : c.DeleteKey = ""
  all_goals simp [hn, hk, hd, h1, h2]

/-- Every token of `sampleRand` has the requested length. -/
theorem sampleRand_length (i n : Nat) (t : String) (h : sampleRand i n = Except.ok t) :
    t.length = n := by
  unfold sampleRand at h
  injection h with h
  subst h
  simp [String.length]

/-! ## Validation -/

/-- C1: `Validate` returns an error exactly when the dashboard is nil, or the command is
external and its key or its delete key is empty, and nil for every other command; an
external command with a missing key or delete key is rejected and `Skel` returns that
error and no snapshot for it, whatever the random source and the time. -/
theorem validate_error_iff (c : CreateCmd) :
    (c.Validate.isSome = true ↔
      (c.Dashboard = none ∨ (c.External = true ∧ (c.Key = "" ∨ c.DeleteKey = "")))) ∧
    (c.Validate = none ↔
      ¬ (c.Dashboard = none ∨ (c.External = true ∧ (c.Key = "" ∨ c.DeleteKey = "")))) ∧
    (c.External = true ∧ (c.Key = "" ∨ c.DeleteKey = "") →
      ∃ e, c.Validate = some e ∧
        ∀ (rand : KeyGenerator) (now : Time) (calls : Nat),
          c.Skel rand now calls = (Except.error e, calls)) := by
  have key : c.Validate.isSome = true ↔
      (c.Dashboard = none ∨ (c.External = true ∧ (c.Key = "" ∨ c.DeleteKey = ""))) := by
    unfold CreateCmd.Validate
    cases hd : c.Dashboard <;> by_cases he : c.External = true <;>
      by_cases hk : c.Key = "" <;> by_cases hdk : c.DeleteKey = "" <;> simp [he, hk, hdk]
  refine ⟨key, ?_, ?_⟩
  · rw [← key]
    cases c.Validate <;> simp
  · intro h
    have hs : c.Validate.isSome = true := key.mpr (Or.inr h)
    cases hv : c.Validate with
    | none => simp [hv] at hs
    | some e => exact ⟨e, rfl, fun rand now calls => Skel_of_validate_some rand c now calls e hv⟩

/-- C1 at `externalNoKey`: validation fails there and `Skel` returns no snapshot. -/
theorem validate_error_iff_witness :
    (externalNoKey.External = true ∧ (externalNoKey.Key = "" ∨ externalNoKey.DeleteKey = "")) ∧
    ∃ e, externalNoKey.Validate = some e ∧
      externalNoKey.Skel sampleRand t0 0 = (Except.error e, 0) :=
  have h : externalNoKey.External = true ∧
      (externalNoKey.Key = "" ∨ externalNoKey.DeleteKey = "") := ⟨rfl, Or.inl rfl⟩
  ⟨h, ((validate_error_iff externalNoKey).2.2 h).imp fun _ he => ⟨he.1, he.2 sampleRand t0 0⟩⟩

/-! ## The two keys -/

/-- C2 as stated fails at `sameKeyCmd`: the command validates, the random source returns
32-character tokens, `Skel` succeeds, and the snapshot has `Key = DeleteKey`. -/
theorem skel_keys_distinct_counterexample :
    sameKeyCmd.Validate = none ∧
    (∀ i t, sampleRand i 32 = Except.ok t → t.length = 32) ∧
    ∃ s, (sameKeyCmd.Skel sampleRand t0 0).1 = Except.ok s ∧
      s.Key = "shared-token" ∧ s.DeleteKey = "shared-token" ∧ s.Key = s.DeleteKey :=
  ⟨rfl, fun i t h => sampleRand_length i 32 t h, _, rfl, rfl, rfl, rfl⟩

/-- C2, amended: for a random source whose tokens have 32 characters, a successful `Skel`
means the command validates, and its snapshot has a non-empty `Key` and a non-empty
`DeleteKey`; the two differ provided the command does not supply the same non-empty value
for both, no generated token equals a key of the command, and two consecutive calls of
the random source do not return the same token. -/
theorem skel_keys_nonempty (rand : KeyGenerator) (c : CreateCmd) (now : Time) (calls : Nat)
    (s : DashboardSnapshot)
    (hlen : ∀ i t, rand i 32 = Except.ok t → t.length = 32)
    (h : (c.Skel rand now calls).1 = Except.ok s) :
    c.Validate = none ∧ s.Key ≠ "" ∧ s.DeleteKey ≠ "" ∧
    ((c.Key ≠ "" → c.DeleteKey ≠ "" → c.Key ≠ c.DeleteKey) →
      (∀ i t, rand i 32 = Except.ok t → t ≠ c.Key ∧ t ≠ c.DeleteKey) →
      (∀ t, rand calls 32 = Except.ok t → rand (calls + 1) 32 ≠ Except.ok t) →
      s.Key ≠ s.DeleteKey) := by
  obtain ⟨hv, key, dkey, hk, hd, rfl⟩ := Skel_ok_inv rand c now calls s h
  have hkey : key ≠ "" := by
    by_cases hc : c.Key = ""
    · rw [if_pos hc] at hk
      exact ne_empty_of_length key (hlen calls key hk)
    · rw [if_neg hc] at hk
      rw [hk]; exact hc
  have hdkey : dkey ≠ "" := by
    by_cases hc : c.DeleteKey = ""
    · rw [if_pos hc] at hd
      exact ne_empty_of_length dkey (hlen _ dkey hd)
    · rw [if_neg hc] at hd
      rw [hd]; exact hc
  refine ⟨hv, hkey, hdkey, ?_⟩
  intro hsup hfresh hdist
  show key ≠ dkey
  by_cases hck : c.Key = "" <;> by_cases hcd : c.DeleteKey = ""
  · rw [if_pos hck] at hk
    rw [if_pos hcd, if_pos hck] at hd
    intro heq
    subst heq
    exact hdist key hk hd
  · rw [if_pos hck] at hk
    rw [if_neg hcd] at hd
    rw [hd]
    exact (hfresh calls key hk).2
  · rw [if_neg hck] at hk
    rw [if_pos hcd] at hd
    rw [hk]
    exact fun heq => (hfresh _ dkey hd).1 heq.symm
  · rw [if_neg hck] at hk
    rw [if_neg hcd] at hd
    rw [hk, hd]
    exact hsup hck hcd

/-- C2, amended, at `demoCmd`: both keys are generated, non-empty and distinct. -/
theorem skel_keys_nonempty_witness :
    (demoCmd.Skel sampleRand t0 0).1 = Except.ok demoSnapshot ∧
    demoSnapshot.Key ≠ "" ∧ demoSnapshot.DeleteKey ≠ "" ∧
    demoSnapshot.Key ≠ demoSnapshot.DeleteKey := by
  have h := skel_keys_nonempty sampleRand demoCmd t0 0 demoSnapshot
    (fun i t ht => sampleRand_length i 32 t ht) rfl
  refine ⟨rfl, h.2.1, h.2.2.1, h.2.2.2 (fun hk => absurd rfl hk) ?_ ?_⟩
  · intro i t ht
    have hne := ne_empty_of_length t (sampleRand_length i 32 t ht)
    exact ⟨hne, hne⟩
  · intro t ht h1
    have heq := ht.trans h1.symm
    simp [sampleRand] at heq

/-- C3 as stated fails at `shortKeyCmd`: the random source returns tokens of the requested
length, `Skel` succeeds, and the snapshot carries the one-character keys of the command. -/
theorem skel_key_length_counterexample :
    (∀ i n t, sampleRand i n = Except.ok t → t.length = n) ∧
    ∃ s, (shortKeyCmd.Skel sampleRand t0 0).1 = Except.ok s ∧
      s.Key.length = 1 ∧ s.DeleteKey.length = 1 :=
  ⟨sampleRand_length, _, rfl, rfl, rfl⟩

/-- C3, amended: with a random source whose tokens have the requested 32 characters, each
of `Key` and `DeleteKey` of a snapshot returned by `Skel` is the non-empty value of the
command, unchanged, or else a generated token of exactly 32 characters; so it has at least
32 characters whenever the command left it empty or supplied at least 32 characters. -/
theorem skel_key_length (rand : KeyGenerator) (c : CreateCmd) (now : Time) (calls : Nat)
    (s : DashboardSnapshot)
    (hlen : ∀ i t, rand i 32 = Except.ok t → t.length = 32)
    (h : (c.Skel rand now calls).1 = Except.ok s) :
    (c.Key ≠ "" → s.Key = c.Key) ∧ (c.Key = "" → s.Key.length = 32) ∧
    (c.DeleteKey ≠ "" → s.DeleteKey = c.DeleteKey) ∧
    (c.DeleteKey = "" → s.DeleteKey.length = 32) ∧
    (c.Key = "" ∨ 32 ≤ c.Key.length → 32 ≤ s.Key.length) ∧
    (c.DeleteKey = "" ∨ 32 ≤ c.DeleteKey.length → 32 ≤ s.DeleteKey.length) := by
  obtain ⟨-, key, dkey, hk, hd, rfl⟩ := Skel_ok_inv rand c now calls s h
  have k1 : c.Key ≠ "" → key = c.Key := fun hc => by rw [if_neg hc] at hk; exact hk
  have k2 : c.Key = "" → key.length = 32 := fun hc => by
    rw [if_pos hc] at hk; exact hlen calls key hk
  have d1 : c.DeleteKey ≠ "" → dkey = c.DeleteKey := fun hc => by
    rw [if_neg hc] at hd; exact hd
  have d2 : c.DeleteKey = "" → dkey.length = 32 := fun hc => by
    rw [if_pos hc] at hd; exact hlen _ dkey hd
  refine ⟨k1, k2, d1, d2, ?_, ?_⟩
  · show _ → 32 ≤ key.length
    intro hc
    by_cases he : c.Key = ""
    · exact (k2 he).ge
    · rw [k1 he]
      rcases hc with hc | hc
      · exact absurd hc he
      · exact hc
  · show _ → 32 ≤ dkey.length
    intro hc
    by_cases he : c.DeleteKey = ""
    · exact (d2 he).ge
    · rw [d1 he]
      rcases hc with hc | hc
      · exact absurd hc he
      · exact hc

/-- C3, amended, at `demoCmd`: both generated keys have 32 characters. -/
theorem skel_key_length_witness :
    (demoCmd.Skel sampleRand t0 0).1 = Except.ok demoSnapshot ∧
    32 ≤ demoSnapshot.Key.length ∧ 32 ≤ demoSnapshot.DeleteKey.length :=
  have h := skel_key_length sampleRand demoCmd t0 0 demoSnapshot
    (fun i t ht => sampleRand_length i 32 t ht) rfl
  ⟨rfl, h.2.2.2.2.1 (Or.inl rfl), h.2.2.2.2.2 (Or.inl rfl)⟩

/-! ## Expiry -/

/-- Adding whole seconds: for a time value `t` and a number `n` of seconds whose sum with
`t.sec` is an `int64`, `t.Add` of `n` seconds is the reading `n` seconds later. -/
theorem Time.Add_seconds (t : Time) (n : Int) (ht : t.valid)
    (hlo : -9223372036854775808 ≤ t.sec + n) (hhi : t.sec + n ≤ 9223372036854775807) :
    t.Add (n * 1000000000) = { sec := t.sec + n, nsec := t.nsec } := by
  obtain ⟨-, -, hn0, hn1⟩ := ht
  have hq : Int.tdiv (n * 1000000000) 1000000000 = n :=
    Int.mul_tdiv_cancel n (by decide)
  have hr : Int.tmod (n * 1000000000) 1000000000 = 0 := Int.mul_tmod_left n 1000000000
  have h1 : ¬ (t.nsec + 0 ≥ 1000000000) := by omega
  have h2 : ¬ (t.nsec + 0 < 0) := by omega
  unfold Time.Add
  simp only [hq, hr, h1, h2, if_false]
  unfold Time.addSec
  simp only [wrap64_of_range (t.sec + n) hlo hhi]
  have h3 : decide (t.sec + n > t.sec) = decide (n > 0) := by
    by_cases hn : n > 0
    · rw [decide_eq_true hn, decide_eq_true (by omega : t.sec + n > t.sec)]
    · rw [decide_eq_false hn, decide_eq_false (by omega : ¬ (t.sec + n > t.sec))]
  simp only [h3, if_true, Int.add_zero]

/-- Adding a positive number of whole seconds to a time value before the last second
gives a strictly later reading, saturated or not. -/
theorem Time.Add_seconds_after (t : Time) (n : Int) (ht : t.valid) (hn : 0 < n)
    (hlast : t.sec < 9223372036854775807) :
    (t.Add (n * 1000000000)).After t = true := by
  obtain ⟨hs0, hs1, hn0, hn1⟩ := ht
  have hq : Int.tdiv (n * 1000000000) 1000000000 = n :=
    Int.mul_tdiv_cancel n (by decide)
  have hr : Int.tmod (n * 1000000000) 1000000000 = 0 := Int.mul_tmod_left n 1000000000
  have h1 : ¬ (t.nsec + 0 ≥ 1000000000) := by omega
  have h2 : ¬ (t.nsec + 0 < 0) := by omega
  unfold Time.Add
  simp only [hq, hr, h1, h2, if_false]
  unfold Time.addSec
  simp only [decide_eq_true hn, hn, if_true]
  by_cases hsum : wrap64 (t.sec + n) > t.sec
  · simp only [decide_eq_true hsum, if_true, Time.After, Bool.or_eq_true, decide_eq_true_eq]
    exact Or.inl hsum
  · simp only [decide_eq_false hsum, Bool.false_eq_true, if_false, Time.After,
      Bool.or_eq_true, decide_eq_true_eq]
    exact Or.inl hlast

/-- C4 as stated fails in two ways. At `farCmd`, whose lifetime of 9223372037 seconds is
an `int64`, the product with `time.Second` wraps around and `Expires` lies before `now`
instead of 9223372037 seconds after it. At `lateTime`, ten seconds before the last second
a `time.Time` can hold, the sum with the 60 seconds of `demoCmd` saturates and `Expires`
is `now` plus 10 seconds. -/
theorem skel_expires_counterexample :
    (farCmd.Validate = none ∧ farCmd.Expires ≠ 0 ∧
      -9223372036854775808 ≤ farCmd.Expires ∧ farCmd.Expires ≤ 9223372036854775807 ∧
      t0.valid ∧
      ∃ s, (farCmd.Skel sampleRand t0 0).1 = Except.ok s ∧
        s.Expires = { sec := 54676627963, nsec := 290448384 } ∧
        s.Expires ≠ { sec := t0.sec + farCmd.Expires, nsec := t0.nsec } ∧
        s.Created.After s.Expires = true) ∧
    (demoCmd.Validate = none ∧ demoCmd.Expires = 60 ∧ lateTime.valid ∧
      ∃ s, (demoCmd.Skel sampleRand lateTime 0).1 = Except.ok s ∧
        s.Expires = { sec := lateTime.sec + 10, nsec := lateTime.nsec } ∧
        s.Expires ≠ { sec := lateTime.sec + 60, nsec := lateTime.nsec }) :=
  ⟨⟨rfl, by decide, by decide, by decide, by decide, _, rfl, by decide, by decide, by decide⟩,
    ⟨rfl, rfl, by decide, _, rfl, by decide, by decide⟩⟩

/-- C4, amended: the snapshot of a successful `Skel` has the zero time as `Expires` when
the command's `Expires` is 0, and otherwise `now` plus exactly that many seconds provided
the number of seconds times 1e9 fits the 64-bit `Duration`, that is for lifetimes between
-9223372036 and 9223372036 seconds, and the sum stays within the seconds a `time.Time`
can hold, so that `Add` does not saturate. -/
theorem skel_expires (rand : KeyGenerator) (c : CreateCmd) (now : Time) (calls : Nat)
    (s : DashboardSnapshot) (h : (c.Skel rand now calls).1 = Except.ok s) :
    c.Validate = none ∧
    (c.Expires = 0 → s.Expires = Time.zero) ∧
    (c.Expires ≠ 0 → -9223372036 ≤ c.Expires → c.Expires ≤ 9223372036 → now.valid →
      -9223372036854775808 ≤ now.sec + c.Expires →
      now.sec + c.Expires ≤ 9223372036854775807 →
      s.Expires = { sec := now.sec + c.Expires, nsec := now.nsec }) := by
  obtain ⟨hv, key, dkey, -, -, rfl⟩ := Skel_ok_inv rand c now calls s h
  refine ⟨hv, ?_, ?_⟩
  · intro h0
    simp [h0]
  · intro h0 hlo hhi hnow hslo hshi
    have hw : Duration.mul c.Expires Second = c.Expires * 1000000000 := by
      unfold Duration.mul Second
      exact wrap64_of_range _ (by omega) (by omega)
    simp only [ne_eq, h0, not_false_eq_true, if_true, hw]
    exact Time.Add_seconds now c.Expires hnow hslo hshi

/-- C4, amended, at the spec scenario: 60 seconds after `t0`. -/
theorem skel_expires_witness :
    (demoCmd.Skel sampleRand t0 0).1 = Except.ok demoSnapshot ∧
    demoSnapshot.Expires = { sec := t0.sec + 60, nsec := t0.nsec } :=
  ⟨rfl, (skel_expires sampleRand demoCmd t0 0 demoSnapshot rfl).2.2
    (by decide) (by decide) (by decide) (by decide) (by decide) (by decide)⟩

/-- C5 as stated fails in two ways. At `pastCmd`, whose lifetime is -1 second, `Expires`
is not the zero time and lies one second before `Created`. At `lastSecond`, the last
second a `time.Time` can hold, the sum with the 60 seconds of `demoCmd` saturates:
`Expires` equals `Created`, is not the zero time and is not strictly after `Created`. -/
theorem skel_expires_after_created_counterexample :
    (∃ s, (pastCmd.Skel sampleRand t0 0).1 = Except.ok s ∧
      s.Expires.IsZero = false ∧ s.Created = t0 ∧
      s.Expires = { sec := t0.sec - 1, nsec := t0.nsec } ∧
      s.Expires.After s.Created = false) ∧
    (lastSecond.valid ∧
      ∃ s, (demoCmd.Skel sampleRand lastSecond 0).1 = Except.ok s ∧
        s.Expires.IsZero = false ∧ s.Created = lastSecond ∧ s.Expires = s.Created ∧
        s.Expires.After s.Created = false) :=
  ⟨⟨_, rfl, by decide, rfl, by decide, by decide⟩,
    ⟨by decide, _, rfl, by decide, rfl, by decide, by decide⟩⟩

/-- C5, amended: for a command whose `Expires` is between 0 and 9223372036 seconds and a
time `now` before the last second a `time.Time` can hold, the snapshot of a successful
`Skel` has, if `Expires` is not the zero time, an `Expires` strictly after `Created`; and
`Expires` is strictly after `Created` whenever the command's `Expires` is positive. -/
theorem skel_expires_after_created (rand : KeyGenerator) (c : CreateCmd) (now : Time)
    (calls : Nat) (s : DashboardSnapshot) (h : (c.Skel rand now calls).1 = Except.ok s)
    (hlo : 0 ≤ c.Expires) (hhi : c.Expires ≤ 9223372036) (hnow : now.valid)
    (hlast : now.sec < 9223372036854775807) :
    (s.Expires.IsZero = false → s.Expires.After s.Created = true) ∧
    (0 < c.Expires → s.Expires.After s.Created = true) := by
  obtain ⟨-, key, dkey, -, -, rfl⟩ := Skel_ok_inv rand c now calls s h
  have hpos : 0 < c.Expires → (Time.After
      (if c.Expires ≠ 0 then now.Add (Duration.mul c.Expires Second) else Time.zero) now)
      = true := by
    intro hp
    have hw : Duration.mul c.Expires Second = c.Expires * 1000000000 := by
      unfold Duration.mul Second
      exact wrap64_of_range _ (by omega) (by omega)
    have h0 : c.Expires ≠ 0 := by omega
    simp only [ne_eq, h0, not_false_eq_true, if_true, hw]
    exact Time.Add_seconds_after now c.Expires hnow hp hlast
  refine ⟨?_, hpos⟩
  intro hz
  by_cases h0 : c.Expires = 0
  · simp [h0, Time.zero, Time.IsZero] at hz
  · exact hpos (by omega)

/-- C5, amended, at the spec scenario: the expiry lies after the creation time. -/
theorem skel_expires_after_created_witness :
    (demoCmd.Skel sampleRand t0 0).1 = Except.ok demoSnapshot ∧
    demoSnapshot.Expires.IsZero = false ∧
    demoSnapshot.Expires.After demoSnapshot.Created = true :=
  ⟨rfl, by decide, (skel_expires_after_created sampleRand demoCmd t0 0 demoSnapshot rfl
    (by decide) (by decide) (by decide) (by decide)).1 (by decide)⟩

/-- C6: a command with `Expires = 0` that validates yields, when `Skel` returns a
snapshot, one whose `Expires` is the zero time, and no sweep time selects it under the
rule "`Expires` is non-zero and `Expires <= now`". -/
theorem skel_never_expires (rand : KeyGenerator) (c : CreateCmd) (now : Time) (calls : Nat)
    (s : DashboardSnapshot) (h0 : c.Expires = 0)
    (h : (c.Skel rand now calls).1 = Except.ok s) :
    c.Validate = none ∧ s.Expires = Time.zero ∧ s.Expires.IsZero = true ∧
    ∀ sweep : Time, expiredAt sweep s = false := by
  obtain ⟨hv, key, dkey, -, -, rfl⟩ := Skel_ok_inv rand c now calls s h
  refine ⟨hv, ?_, ?_, ?_⟩
  · simp [h0]
  · simp [h0, Time.zero, Time.IsZero]
  · intro sweep
    simp [expiredAt, h0, Time.zero, Time.IsZero]

/-- C6 at `neverCmd`: the snapshot exists, its `Expires` is the zero time, and a sweep
long after its creation does not select it. -/
theorem skel_never_expires_witness :
    ∃ s, (neverCmd.Skel sampleRand t0 0).1 = Except.ok s ∧
      s.Expires = Time.zero ∧ expiredAt (t0.Add 9000000000000000000) s = false :=
  ⟨_, rfl, (skel_never_expires sampleRand neverCmd t0 0 _ rfl rfl).2.1,
    (skel_never_expires sampleRand neverCmd t0 0 _ rfl rfl).2.2.2 _⟩

/-! ## Redaction -/

/-- C7: `Redact` is idempotent, redacting twice gives the same snapshot as redacting
once. -/
theorem redact_idempotent (s : DashboardSnapshot) : s.Redact.Redact = s.Redact := rfl

/-- C8: after `Redact` the fields `DeleteKey` and `ExternalDeleteURL` are the empty
string and every other field is the one of the snapshot before; in particular the read
`Key` survives. -/
theorem redact_frame (s : DashboardSnapshot) :
    s.Redact.DeleteKey = "" ∧ s.Redact.ExternalDeleteURL = "" ∧
    s.Redact.ID = s.ID ∧ s.Redact.Name = s.Name ∧ s.Redact.Key = s.Key ∧
    s.Redact.OrgID = s.OrgID ∧ s.Redact.UserID = s.UserID ∧
    s.Redact.External = s.External ∧ s.Redact.ExternalURL = s.ExternalURL ∧
    s.Redact.Expires = s.Expires ∧ s.Redact.Created = s.Created ∧
    s.Redact.Updated = s.Updated ∧ s.Redact.Dashboard = s.Dashboard ∧
    s.Redact.DashboardEncrypted = s.DashboardEncrypted ∧
    s.Redact = { s with DeleteKey := "", ExternalDeleteURL := "" } :=
  ⟨rfl, rfl, rfl, rfl, rfl, rfl, rfl, rfl, rfl, rfl, rfl, rfl, rfl, rfl, rfl⟩

/-! ## Content and sharing fields -/

/-- C9 as stated fails at `bothCmd`: `Skel` succeeds and the snapshot has a non-empty
`Dashboard` and a non-empty `DashboardEncrypted` at once. -/
theorem skel_content_counterexample :
    ∃ s, (bothCmd.Skel sampleRand t0 0).1 = Except.ok s ∧
      s.Dashboard.len = 1 ∧ s.DashboardEncrypted.len = 3 ∧
      0 < s.Dashboard.len ∧ 0 < s.DashboardEncrypted.len :=
  ⟨_, rfl, rfl, rfl, by decide, by decide⟩

/-- C9, amended: the snapshot of a successful `Skel` carries the command's `Dashboard`,
which is not nil, and the command's `DashboardEncrypted`, both unchanged; so exactly one
of the two is populated if and only if exactly one of them is populated in the
command. -/
theorem skel_content (rand : KeyGenerator) (c : CreateCmd) (now : Time) (calls : Nat)
    (s : DashboardSnapshot) (h : (c.Skel rand now calls).1 = Except.ok s) :
    s.Dashboard = c.Dashboard ∧ s.DashboardEncrypted = c.DashboardEncrypted ∧
    s.Dashboard ≠ none ∧
    (Xor' (0 < s.Dashboard.len) (0 < s.DashboardEncrypted.len) ↔
      Xor' (0 < c.Dashboard.len) (0 < c.DashboardEncrypted.len)) := by
  obtain ⟨hv, key, dkey, -, -, rfl⟩ := Skel_ok_inv rand c now calls s h
  exact ⟨rfl, rfl, dashboard_of_validate_none c hv, Iff.rfl⟩

/-- C9, amended, at the spec scenario: only the plain document is populated. -/
theorem skel_content_witness :
    (demoCmd.Skel sampleRand t0 0).1 = Except.ok demoSnapshot ∧
    Xor' (0 < demoSnapshot.Dashboard.len) (0 < demoSnapshot.DashboardEncrypted.len) :=
  ⟨rfl, (skel_content sampleRand demoCmd t0 0 demoSnapshot rfl).2.2.2.mpr
    (Or.inl ⟨by decide, by decide⟩)⟩

/-- C10 as stated fails at `urlCmd`: `Skel` succeeds, `External` is false, and both
external addresses are non-empty. -/
theorem skel_external_urls_counterexample :
    ∃ s, (urlCmd.Skel sampleRand t0 0).1 = Except.ok s ∧ s.External = false ∧
      s.ExternalURL = "https://snapshots.example/view/1" ∧
      s.ExternalDeleteURL = "https://snapshots.example/delete/1" ∧
      s.ExternalURL ≠ "" ∧ s.ExternalDeleteURL ≠ "" :=
  ⟨_, rfl, rfl, rfl, rfl, by decide, by decide⟩

/-- C10, amended: the snapshot of a successful `Skel` carries the command's `External`,
`ExternalURL` and `ExternalDeleteURL` unchanged; if `External` is false then both
addresses are empty exactly when both are empty in the command. -/
theorem skel_external_urls (rand : KeyGenerator) (c : CreateCmd) (now : Time) (calls : Nat)
    (s : DashboardSnapshot) (h : (c.Skel rand now calls).1 = Except.ok s) :
    s.External = c.External ∧ s.ExternalURL = c.ExternalURL ∧
    s.ExternalDeleteURL = c.ExternalDeleteURL ∧
    (s.External = false →
      ((s.ExternalURL = "" ∧ s.ExternalDeleteURL = "") ↔
        (c.ExternalURL = "" ∧ c.ExternalDeleteURL = ""))) := by
  obtain ⟨-, key, dkey, -, -, rfl⟩ := Skel_ok_inv rand c now calls s h
  exact ⟨rfl, rfl, rfl, fun _ => Iff.rfl⟩

/-- C10, amended, at the spec scenario: not external, and both addresses empty. -/
theorem skel_external_urls_witness :
    (demoCmd.Skel sampleRand t0 0).1 = Except.ok demoSnapshot ∧
    demoSnapshot.External = false ∧
    demoSnapshot.ExternalURL = "" ∧ demoSnapshot.ExternalDeleteURL = "" :=
  have h := skel_external_urls sampleRand demoCmd t0 0 demoSnapshot rfl
  ⟨rfl, rfl, (h.2.2.2 rfl).mpr ⟨rfl, rfl⟩⟩

/-! ## Calls of the random source -/

/-- The record `Skel` builds from a command, the two final keys, the time and the
expiry. -/
theorem Skel_of_validate_none (rand : KeyGenerator) (c : CreateCmd) (now : Time)
    (calls : Nat) (hv : c.Validate = none) :
    c.Skel rand now calls =
      match (if c.Key = "" then rand calls 32 else Except.ok c.Key) with
      | Except.error err =>
        (Except.error (Error.wrapf "failed to generate random key: " err), calls + 1)
      | Except.ok key =>
        match (if c.DeleteKey = "" then rand (if c.Key = "" then calls + 1 else calls) 32
          else Except.ok c.DeleteKey) with
        | Except.error err =>
          (Except.error (Error.wrapf "failed to generate random delete key: " err),
            (if c.Key = "" then calls + 1 else calls) + 1)
        | Except.ok dkey =>
          (Except.ok
            { ID := 0
              Name := if c.Name = "" then "Unnamed snapshot" else c.Name
              Key := key
              OrgID := c.OrgID
              UserID := c.UserID
              External := c.External
              ExternalURL := c.ExternalURL
              DeleteKey := dkey
              ExternalDeleteURL := c.ExternalDeleteURL
              Expires :=
                if c.Expires ≠ 0 then now.Add (Duration.mul c.Expires Second) else Time.zero
              Created := now
              Updated := now
              Dashboard := c.Dashboard
              DashboardEncrypted := c.DashboardEncrypted },
            (if c.Key = "" then calls + 1 else calls) + (if c.DeleteKey = "" then 1 else 0)) := by
  unfold CreateCmd.Skel
  simp only [hv]
  by_cases hn : c.Name = "" <;> by_cases hk : c.Key = "" <;> by_cases hd : c.DeleteKey = ""
  all_goals simp only [hn, hk, hd, if_true, if_false]
  all_goals first
    | rfl
    | (cases h1 : rand calls 32 <;> simp only [h1, hd, if_true, if_false] <;> first
        | rfl
        | (cases h2 : rand (calls + 1) 32 <;> rfl))

/-- An external command that validates supplies both keys. -/
theorem keys_of_validate_none (c : CreateCmd) (hv : c.Validate = none)
    (he : c.External = true) : c.Key ≠ "" ∧ c.DeleteKey ≠ "" := by
  unfold CreateCmd.Validate at hv
  by_cases hk : c.Key = "" <;> by_cases hd : c.DeleteKey = "" <;>
    cases hdb : c.Dashboard <;> simp [he, hk, hd, hdb] at hv ⊢

/-- The number of calls of the random source after a successful `Skel`: one more for each
key the command leaves empty. -/
theorem Skel_ok_calls (rand : KeyGenerator) (c : CreateCmd) (now : Time) (calls : Nat)
    (s : DashboardSnapshot) (h : (c.Skel rand now calls).1 = Except.ok s) :
    (c.Skel rand now calls).2 =
      calls + (if c.Key = "" then 1 else 0) + (if c.DeleteKey = "" then 1 else 0) := by
  have hv := (Skel_ok_inv rand c now calls s h).1
  rw [Skel_of_validate_none rand c now calls hv] at h ⊢
  by_cases hk : c.Key = "" <;> by_cases hd : c.DeleteKey = ""
  all_goals simp only [hk, hd, if_true, if_false] at h ⊢
  · cases h1 : rand calls 32 with
    | error e => simp [h1] at h
    | ok t =>
      cases h2 : rand (calls + 1) 32 with
      | error e => simp [h1, h2] at h
      | ok t2 => rfl
  · cases h1 : rand calls 32 with
    | error e => simp [h1] at h
    | ok t => rfl
  · cases h2 : rand calls 32 with
    | error e => simp [h2] at h
    | ok t2 => rfl

/-! ## Defaults and bookkeeping fields -/

/-- C11: the `Name` of a snapshot returned by `Skel` is never empty; it is the placeholder
"Unnamed snapshot" when the command has no name and the command's name otherwise. -/
theorem skel_name (rand : KeyGenerator) (c : CreateCmd) (now : Time) (calls : Nat)
    (s : DashboardSnapshot) (h : (c.Skel rand now calls).1 = Except.ok s) :
    s.Name ≠ "" ∧ (c.Name = "" → s.Name = "Unnamed snapshot") ∧
    (c.Name ≠ "" → s.Name = c.Name) := by
  obtain ⟨-, key, dkey, -, -, rfl⟩ := Skel_ok_inv rand c now calls s h
  refine ⟨?_, ?_, ?_⟩
  · show (if c.Name = "" then "Unnamed snapshot" else c.Name) ≠ ""
    by_cases hn : c.Name = ""
    · rw [if_pos hn]; decide
    · rw [if_neg hn]; exact hn
  · intro hn
    show (if c.Name = "" then "Unnamed snapshot" else c.Name) = _
    rw [if_pos hn]
  · intro hn
    show (if c.Name = "" then "Unnamed snapshot" else c.Name) = _
    rw [if_neg hn]

/-- C11 at `unnamedCmd`: the snapshot gets the placeholder name. -/
theorem skel_name_witness :
    ∃ s, (unnamedCmd.Skel sampleRand t0 0).1 = Except.ok s ∧
      s.Name = "Unnamed snapshot" ∧ s.Name ≠ "" :=
  ⟨_, rfl, (skel_name sampleRand unnamedCmd t0 0 _ rfl).2.1 rfl,
    (skel_name sampleRand unnamedCmd t0 0 _ rfl).1⟩

/-- C12: a snapshot returned by `Skel(now)` has `ID = 0` and `Created = Updated = now`. -/
theorem skel_id_created_updated (rand : KeyGenerator) (c : CreateCmd) (now : Time)
    (calls : Nat) (s : DashboardSnapshot) (h : (c.Skel rand now calls).1 = Except.ok s) :
    s.ID = 0 ∧ s.Created = now ∧ s.Updated = now ∧ s.Created = s.Updated := by
  obtain ⟨-, key, dkey, -, -, rfl⟩ := Skel_ok_inv rand c now calls s h
  exact ⟨rfl, rfl, rfl, rfl⟩

/-- C12 at the spec scenario: `ID` is 0 and both times are `t0`. -/
theorem skel_id_created_updated_witness :
    (demoCmd.Skel sampleRand t0 0).1 = Except.ok demoSnapshot ∧
    demoSnapshot.ID = 0 ∧ demoSnapshot.Created = t0 ∧ demoSnapshot.Updated = t0 :=
  have h := skel_id_created_updated sampleRand demoCmd t0 0 demoSnapshot rfl
  ⟨rfl, h.1, h.2.1, h.2.2.1⟩

/-! ## Errors -/

/-- C13: when `Validate` returns an error, `Skel` returns no snapshot and that very error,
not wrapped, whatever the time and the random source, and the number of calls made to
the random source stays what it was. -/
theorem skel_validate_error (c : CreateCmd) (e : Error) (hv : c.Validate = some e)
    (rand : KeyGenerator) (now : Time) (calls : Nat) :
    c.Skel rand now calls = (Except.error e, calls) ∧
    (c.Skel rand now calls).1 = Except.error e ∧ (c.Skel rand now calls).2 = calls := by
  rw [Skel_of_validate_some rand c now calls e hv]
  exact ⟨rfl, rfl, rfl⟩

/-- C13 at `noDashboardCmd`: `Skel` returns the validation error and makes no call. -/
theorem skel_validate_error_witness :
    noDashboardCmd.Validate = some (Error.errorf "dashboard field required") ∧
    noDashboardCmd.Skel dryRand t0 5 =
      (Except.error (Error.errorf "dashboard field required"), 5) :=
  ⟨rfl, (skel_validate_error noDashboardCmd _ rfl dryRand t0 5).1⟩

/-- C14: for a command that validates, a failing call of the random source for an empty
`Key`, or for an empty `DeleteKey` once the key is settled, makes `Skel` return an error
that wraps the failure and no snapshot; and `Skel` returns a snapshot whenever every call
it makes succeeds. -/
theorem skel_generator_failure (rand : KeyGenerator) (c : CreateCmd) (now : Time)
    (calls : Nat) (hv : c.Validate = none) :
    (∀ e, c.Key = "" → rand calls 32 = Except.error e →
      c.Skel rand now calls =
        (Except.error (Error.wrapf "failed to generate random key: " e), calls + 1)) ∧
    (∀ e, c.DeleteKey = "" → (c.Key = "" → ∃ t, rand calls 32 = Except.ok t) →
      rand (if c.Key = "" then calls + 1 else calls) 32 = Except.error e →
      c.Skel rand now calls =
        (Except.error (Error.wrapf "failed to generate random delete key: " e),
          (if c.Key = "" then calls + 1 else calls) + 1)) ∧
    ((c.Key = "" → ∃ t, rand calls 32 = Except.ok t) →
      (c.DeleteKey = "" →
        ∃ t, rand (if c.Key = "" then calls + 1 else calls) 32 = Except.ok t) →
      ∃ s, (c.Skel rand now calls).1 = Except.ok s) := by
  rw [Skel_of_validate_none rand c now calls hv]
  refine ⟨?_, ?_, ?_⟩
  · intro e hk h1
    simp only [hk, if_true, h1]
  · intro e hd hkey h2
    by_cases hk : c.Key = ""
    · obtain ⟨t, h1⟩ := hkey hk
      simp only [hk, if_true] at h2
      simp only [hk, hd, if_true, h1, h2]
    · simp only [hk, if_false] at h2
      simp only [hk, hd, if_true, if_false, h2]
  · intro hkey hdkey
    by_cases hk : c.Key = "" <;> by_cases hd : c.DeleteKey = ""
    · obtain ⟨t, h1⟩ := hkey hk
      obtain ⟨t2, h2⟩ := hdkey hd
      simp only [hk, if_true] at h2
      simp only [hk, hd, if_true, h1, h2]
      exact ⟨_, rfl⟩
    · obtain ⟨t, h1⟩ := hkey hk
      simp only [hk, hd, if_true, if_false, h1]
      exact ⟨_, rfl⟩
    · obtain ⟨t2, h2⟩ := hdkey hd
      simp only [hk, if_false] at h2
      simp only [hk, hd, if_true, if_false, h2]
      exact ⟨_, rfl⟩
    · simp only [hk, hd, if_false]
      exact ⟨_, rfl⟩

/-- C14 at `demoCmd` with `dryRand`: the call for the key succeeds, the call for the
delete key fails, and `Skel` returns the wrapped failure and no snapshot. -/
theorem skel_generator_failure_witness :
    demoCmd.Validate = none ∧
    demoCmd.Skel dryRand t0 0 =
      (Except.error (Error.wrapf "failed to generate random delete key: " entropyError), 2) :=
  ⟨rfl, (skel_generator_failure dryRand demoCmd t0 0 rfl).2.1 entropyError rfl
    (fun _ => ⟨_, rfl⟩) rfl⟩

/-- C15 as stated fails: the messages of the three validation errors are not the ones the
claim gives. Shown at `noDashboardCmd`, `externalNoKey` and `externalNoDeleteKey`. -/
theorem validate_messages_counterexample :
    (∃ e, noDashboardCmd.Validate = some e ∧ e.message = "dashboard field required" ∧
      e.message ≠ "dashboard required") ∧
    (∃ e, externalNoKey.Validate = some e ∧
      e.message = "key is required when creating external snapshot" ∧
      e.message ≠ "key required for external snapshot") ∧
    (∃ e, externalNoDeleteKey.Validate = some e ∧
      e.message = "deleteKey is required when creating external snapshot" ∧
      e.message ≠ "deleteKey required for external snapshot") :=
  ⟨⟨_, rfl, rfl, by decide⟩, ⟨_, rfl, rfl, by decide⟩, ⟨_, rfl, rfl, by decide⟩⟩

/-- C15, amended: `Validate`, and `Skel` after it, fail with the message "dashboard field
required" when the dashboard is absent; with "key is required when creating external
snapshot" when the dashboard is present, `External` is set and `Key` is empty; and with
"deleteKey is required when creating external snapshot" when the dashboard is present,
`External` is set, `Key` is non-empty and `DeleteKey` is empty. -/
theorem validate_messages (c : CreateCmd) :
    (c.Dashboard = none →
      ∃ e, c.Validate = some e ∧ e.message = "dashboard field required" ∧
        ∀ (rand : KeyGenerator) (now : Time) (calls : Nat),
          c.Skel rand now calls = (Except.error e, calls)) ∧
    (c.Dashboard ≠ none → c.External = true → c.Key = "" →
      ∃ e, c.Validate = some e ∧
        e.message = "key is required when creating external snapshot" ∧
        ∀ (rand : KeyGenerator) (now : Time) (calls : Nat),
          c.Skel rand now calls = (Except.error e, calls)) ∧
    (c.Dashboard ≠ none → c.External = true → c.Key ≠ "" → c.DeleteKey = "" →
      ∃ e, c.Validate = some e ∧
        e.message = "deleteKey is required when creating external snapshot" ∧
        ∀ (rand : KeyGenerator) (now : Time) (calls : Nat),
          c.Skel rand now calls = (Except.error e, calls)) := by
  refine ⟨?_, ?_, ?_⟩
  · intro hd
    have hv : c.Validate = some (Error.errorf "dashboard field required") := by
      unfold CreateCmd.Validate
      simp [hd]
    exact ⟨_, hv, rfl, fun rand now calls => Skel_of_validate_some rand c now calls _ hv⟩
  · intro hd he hk
    have hv : c.Validate =
        some (Error.errorf "key is required when creating external snapshot") := by
      unfold CreateCmd.Validate
      cases hdb : c.Dashboard with
      | none => exact absurd hdb hd
      | some d => simp [he, hk]
    exact ⟨_, hv, rfl, fun rand now calls => Skel_of_validate_some rand c now calls _ hv⟩
  · intro hd he hk hdk
    have hv : c.Validate =
        some (Error.errorf "deleteKey is required when creating external snapshot") := by
      unfold CreateCmd.Validate
      cases hdb : c.Dashboard with
      | none => exact absurd hdb hd
      | some d => simp [he, hk, hdk]
    exact ⟨_, hv, rfl, fun rand now calls => Skel_of_validate_some rand c now calls _ hv⟩

/-- C15, amended, at `externalNoDeleteKey`: the delete key message of the source. -/
theorem validate_messages_witness :
    ∃ e, externalNoDeleteKey.Validate = some e ∧
      e.message = "deleteKey is required when creating external snapshot" ∧
      externalNoDeleteKey.Skel sampleRand t0 0 = (Except.error e, 0) :=
  ((validate_messages externalNoDeleteKey).2.2 (fun h => nomatch h) rfl (by decide) rfl).imp
    fun _ he => ⟨he.1, he.2.1, he.2.2 sampleRand t0 0⟩

/-! ## The search index -/

/-- C16: `Search(query, orgID)` takes the query and the organisation of the caller and
returns only results of that organisation: for every index state, query and `orgID`,
every `Result` returned has `OrgID = orgID` (and is an entry of the index that matches
the query). -/
theorem search_scoped (relevance : String → String → Nat) (st : List Fts.Result)
    (query : String) (orgID : Int) (r : Fts.Result)
    (hr : r ∈ specSearch relevance st query orgID) :
    r.OrgID = orgID ∧ r ∈ st ∧ 0 < relevance query r.Text := by
  unfold specSearch at hr
  rw [List.mem_insertionSort, List.mem_filter] at hr
  obtain ⟨hmem, hcond⟩ := hr
  rw [Bool.and_eq_true, decide_eq_true_eq, decide_eq_true_eq] at hcond
  exact ⟨hcond.1, hmem, hcond.2⟩

/-- C16 at `twoOrgEntries`: both organisations hold an entry with the text `cpu`; the
search of organisation 1 returns its own entry only. -/
theorem search_scoped_witness :
    specSearch sampleRelevance twoOrgEntries "cpu" 1 = [entryOfOrg1] ∧
    entryOfOrg2 ∈ twoOrgEntries ∧ entryOfOrg2.Text = "cpu" ∧
    entryOfOrg1.OrgID = 1 :=
  ⟨by decide, by decide, rfl,
    (search_scoped sampleRelevance twoOrgEntries "cpu" 1 entryOfOrg1 (by decide)).1⟩

/-! ## Calls of the random source and supplied keys -/

/-- C17 as stated fails at `externalCmd`, which supplies both keys: the command validates,
`Skel` succeeds, and the random source is not called at all. -/
theorem skel_generator_calls_counterexample :
    externalCmd.Validate = none ∧
    ∃ s, (externalCmd.Skel sampleRand t0 0).1 = Except.ok s ∧
      (externalCmd.Skel sampleRand t0 0).2 = 0 ∧
      (externalCmd.Skel sampleRand t0 0).2 ≠ 0 + 2 :=
  ⟨rfl, _, rfl, rfl, by decide⟩

/-- C17, amended: a successful `Skel` calls the random source once for each of `Key` and
`DeleteKey` that the command leaves empty: twice when both are empty, and not at all when
the command supplies both, as every external command that validates does. -/
theorem skel_generator_calls (rand : KeyGenerator) (c : CreateCmd) (now : Time)
    (calls : Nat) (s : DashboardSnapshot) (h : (c.Skel rand now calls).1 = Except.ok s) :
    (c.Skel rand now calls).2 =
      calls + (if c.Key = "" then 1 else 0) + (if c.DeleteKey = "" then 1 else 0) ∧
    (c.Key = "" → c.DeleteKey = "" → (c.Skel rand now calls).2 = calls + 2) ∧
    (c.Key ≠ "" → c.DeleteKey ≠ "" → (c.Skel rand now calls).2 = calls) ∧
    (c.External = true → (c.Skel rand now calls).2 = calls) := by
  have hc := Skel_ok_calls rand c now calls s h
  have hv := (Skel_ok_inv rand c now calls s h).1
  refine ⟨hc, ?_, ?_, ?_⟩
  · intro hk hd
    rw [hc, if_pos hk, if_pos hd]
  · intro hk hd
    rw [hc, if_neg hk, if_neg hd]
    rfl
  · intro he
    obtain ⟨hk, hd⟩ := keys_of_validate_none c hv he
    rw [hc, if_neg hk, if_neg hd]
    rfl

/-- C17, amended, at the spec scenario: both keys are generated, two calls. -/
theorem skel_generator_calls_witness :
    (demoCmd.Skel sampleRand t0 0).1 = Except.ok demoSnapshot ∧
    (demoCmd.Skel sampleRand t0 0).2 = 2 :=
  ⟨rfl, (skel_generator_calls sampleRand demoCmd t0 0 demoSnapshot rfl).2.1 rfl rfl⟩

/-- C18: for a command that validates, `Skel` calls the random source at most once for
each key the command leaves empty and never for a key it supplies; in a returned snapshot
a non-empty `Key` or `DeleteKey` of the command is kept verbatim, an empty `Key` gets the
token of the first call, and an empty `DeleteKey` the token of the call after the one for
the key, if any. -/
theorem skel_supplied_keys (rand : KeyGenerator) (c : CreateCmd) (now : Time) (calls : Nat)
    (hv : c.Validate = none) :
    calls ≤ (c.Skel rand now calls).2 ∧
    (c.Skel rand now calls).2 ≤
      calls + (if c.Key = "" then 1 else 0) + (if c.DeleteKey = "" then 1 else 0) ∧
    ∀ s, (c.Skel rand now calls).1 = Except.ok s →
      (c.Key ≠ "" → s.Key = c.Key) ∧
      (c.DeleteKey ≠ "" → s.DeleteKey = c.DeleteKey) ∧
      (c.Key = "" → rand calls 32 = Except.ok s.Key) ∧
      (c.DeleteKey = "" →
        rand (calls + (if c.Key = "" then 1 else 0)) 32 = Except.ok s.DeleteKey) ∧
      (c.Skel rand now calls).2 =
        calls + (if c.Key = "" then 1 else 0) + (if c.DeleteKey = "" then 1 else 0) := by
  refine ⟨?_, ?_, ?_⟩
  · rw [Skel_of_validate_none rand c now calls hv]
    by_cases hk : c.Key = "" <;> by_cases hd : c.DeleteKey = ""
    all_goals simp only [hk, hd, if_true, if_false]
    all_goals first
      | exact Nat.le_refl _
      | (cases h1 : rand calls 32 <;> simp only [] <;> first
          | omega
          | (cases h2 : rand (calls + 1) 32 <;> simp only [] <;> omega))
  · rw [Skel_of_validate_none rand c now calls hv]
    by_cases hk : c.Key = "" <;> by_cases hd : c.DeleteKey = ""
    all_goals simp only [hk, hd, if_true, if_false]
    all_goals first
      | exact Nat.le_refl _
      | (cases h1 : rand calls 32 <;> simp only [] <;> first
          | omega
          | (cases h2 : rand (calls + 1) 32 <;> simp only [] <;> omega))
  · intro s h
    have hc := Skel_ok_calls rand c now calls s h
    obtain ⟨-, key, dkey, hk, hd, rfl⟩ := Skel_ok_inv rand c now calls s h
    refine ⟨?_, ?_, ?_, ?_, hc⟩
    · intro hck
      rw [if_neg hck] at hk
      exact hk
    · intro hcd
      rw [if_neg hcd] at hd
      exact hd
    · intro hck
      rw [if_pos hck] at hk
      exact hk
    · intro hcd
      rw [if_pos hcd] at hd
      by_cases hck : c.Key = ""
      · rw [if_pos hck] at hd ⊢
        exact hd
      · rw [if_neg hck] at hd ⊢
        exact hd

/-- C18 at `ownKeyCmd`: the supplied read key is kept, the delete key is the token of the
only call made. -/
theorem skel_supplied_keys_witness :
    ∃ s, (ownKeyCmd.Skel sampleRand t0 0).1 = Except.ok s ∧
      s.Key = "my-own-read-key" ∧
      sampleRand 0 32 = Except.ok s.DeleteKey ∧
      (ownKeyCmd.Skel sampleRand t0 0).2 = 1 :=
  have h := (skel_supplied_keys sampleRand ownKeyCmd t0 0 rfl).2.2 _ rfl
  ⟨_, rfl, h.1 (by decide), h.2.2.2.1 rfl, h.2.2.2.2⟩

/-- C19: a snapshot returned by `Skel` carries the command's `OrgID`, `UserID`,
`External`, `ExternalURL`, `ExternalDeleteURL`, `Dashboard` and `DashboardEncrypted`
unchanged. -/
theorem skel_copies_fields (rand : KeyGenerator) (c : CreateCmd) (now : Time) (calls : Nat)
    (s : DashboardSnapshot) (h : (c.Skel rand now calls).1 = Except.ok s) :
    s.OrgID = c.OrgID ∧ s.UserID = c.UserID ∧ s.External = c.External ∧
    s.ExternalURL = c.ExternalURL ∧ s.ExternalDeleteURL = c.ExternalDeleteURL ∧
    s.Dashboard = c.Dashboard ∧ s.DashboardEncrypted = c.DashboardEncrypted := by
  obtain ⟨-, key, dkey, -, -, rfl⟩ := Skel_ok_inv rand c now calls s h
  exact ⟨rfl, rfl, rfl, rfl, rfl, rfl, rfl⟩

/-- C19 at `urlCmd`: organisation, user, addresses and document are the command's. -/
theorem skel_copies_fields_witness :
    ∃ s, (urlCmd.Skel sampleRand t0 0).1 = Except.ok s ∧
      s.OrgID = 1 ∧ s.UserID = 7 ∧ s.External = false ∧
      s.ExternalURL = "https://snapshots.example/view/1" ∧
      s.ExternalDeleteURL = "https://snapshots.example/delete/1" ∧
      s.Dashboard = some [("a", Value.number 1)] ∧ s.DashboardEncrypted = none :=
  ⟨_, rfl, skel_copies_fields sampleRand urlCmd t0 0 _ rfl⟩

/-! ## Conversion to the `models` record -/

/-- C20: with the JSON marshalling and re-parsing of the dashboard taken as a step that
may fail, `ModelsDashboardSnapshot` returns the error of that step exactly when the step
fails, and otherwise the record whose fields are the same-named fields of the snapshot
(`DeleteKey` and `ExternalDeleteURL` included) and whose `Dashboard` is the re-parsed
document; the snapshot itself is left as it was. -/
theorem models_dashboard_snapshot {J : Type}
    (marshal : Document → Except Error (List (Fin 256)))
    (newJson : List (Fin 256) → Except Error J) (s : DashboardSnapshot) :
    (s.ModelsDashboardSnapshot marshal newJson).2 = s ∧
    (∀ e, (s.ModelsDashboardSnapshot marshal newJson).1 = Except.error e ↔
      (marshal s.Dashboard).bind newJson = Except.error e) ∧
    (∀ m, (s.ModelsDashboardSnapshot marshal newJson).1 = Except.ok m ↔
      ∃ j, (marshal s.Dashboard).bind newJson = Except.ok j ∧
        m =
          { Id := s.ID
            Name := s.Name
            Key := s.Key
            DeleteKey := s.DeleteKey
            OrgId := s.OrgID
            UserId := s.UserID
            External := s.External
            ExternalUrl := s.ExternalURL
            ExternalDeleteUrl := s.ExternalDeleteURL
            Expires := s.Expires
            Created := s.Created
            Updated := s.Updated
            Dashboard := j
            DashboardEncrypted := s.DashboardEncrypted }) := by
  unfold DashboardSnapshot.ModelsDashboardSnapshot
  cases hm : marshal s.Dashboard with
  | error e0 =>
    refine ⟨rfl, ?_, ?_⟩
    · intro e
      simp [Except.bind]
    · intro m
      simp [Except.bind]
  | ok bs =>
    dsimp only
    cases hn : newJson bs with
    | error e0 =>
      refine ⟨rfl, ?_, ?_⟩
      · intro e
        simp [Except.bind, hn]
      · intro m
        simp [Except.bind, hn]
    | ok j0 =>
      refine ⟨rfl, ?_, ?_⟩
      · intro e
        simp [Except.bind, hn]
      · intro m
        simp only [Except.bind, hn, Except.ok.injEq]
        constructor
        · intro h
          exact ⟨j0, rfl, h.symm⟩
        · rintro ⟨j, hj, rfl⟩
          rw [hj]

/-- C20 at `demoSnapshot`: the conversion succeeds and keeps the delete key; at its
redacted copy without a dashboard the marshalling step fails and so does the
conversion. -/
theorem models_dashboard_snapshot_witness :
    (∃ m, (demoSnapshot.ModelsDashboardSnapshot sampleMarshal sampleNewJson).1 = Except.ok m ∧
      m.Dashboard = [123] ∧ m.Key = demoSnapshot.Key ∧
      m.DeleteKey = "bbbbbbbbbbbbbbbbbbbbbbbbbbbbbbbb") ∧
    (DashboardSnapshot.ModelsDashboardSnapshot sampleMarshal sampleNewJson
      { demoSnapshot with Dashboard := none }).1 =
        Except.error (Error.errorf "json: unsupported value") :=
  ⟨⟨_, ((models_dashboard_snapshot sampleMarshal sampleNewJson demoSnapshot).2.2 _).mpr
      ⟨[123], rfl, rfl⟩, rfl, rfl, rfl⟩,
    ((models_dashboard_snapshot sampleMarshal sampleNewJson
      { demoSnapshot with Dashboard := none }).2.1 _).mpr rfl⟩

end Snapshot
